import Mathlib

/-!
Shallow embedding of the consensus round protocol of `api/app/channel.py`,
the agent gateway of `api/app/agent.py`, and the run-creation path of
`api/app/routers/channel_router.py`, with theorems checking the
natural-language specification against the code.

Python strings are modelled as Lean `String`; the ASCII whitespace set of
Python `str.strip` and of the regex class `\s` is modelled by `isPySpace`
(the inputs relevant here are ASCII).  Python `str.upper` is modelled by
`Char.toUpper` per character, which agrees with Python on ASCII.
-/

/-- Whitespace characters recognised by Python `str.strip()` and the regex
class `\s`, restricted to the ASCII range used by this development. -/
def isPySpace (c : Char) : Bool :=
  c = ' ' || c = '\t' || c = '\n' || c = '\r' || c = '\x0b' || c = '\x0c'

/-- Remove leading and trailing whitespace from a character list, as Python
`str.strip()` does. -/
def stripChars (l : List Char) : List Char :=
  ((l.dropWhile isPySpace).reverse.dropWhile isPySpace).reverse

/-- Python `str.strip()`. -/
def pyStrip (s : String) : String :=
  String.mk (stripChars s.data)

/-- Python `str.upper()` (ASCII). -/
def pyUpper (s : String) : String :=
  String.mk (s.data.map Char.toUpper)

/-- Character-list version of `str.startswith`. -/
def charsStartWith : List Char → List Char → Bool
  | _, [] => true
  | [], _ :: _ => false
  | c :: cs, p :: ps => c = p && charsStartWith cs ps

/-- Python `s.startswith(p)`. -/
def pyStartsWith (s p : String) : Bool :=
  charsStartWith s.data p.data

/-- Python `"sep".join(parts)`. -/
def pyJoin (sep : String) : List String → String
  | [] => ""
  | [x] => x
  | x :: y :: rest => x ++ sep ++ pyJoin sep (y :: rest)

/-- Case-insensitive keyword match at the head of a character list: when the
uppercased input starts with the (already uppercase) keyword, return the
remainder after the keyword. -/
def ciDropKeyword : List Char → List Char → Option (List Char)
  | [], rest => some rest
  | _ :: _, [] => none
  | k :: ks, c :: cs => if c.toUpper = k then ciDropKeyword ks cs else none

/-- The three sentinel keywords of the verdict grammar, in the order they
appear in the alternation of the regex in `Channel._parse_guidance`. -/
def sentinelKeywords : List String :=
  ["CONSENSUS_REACHED", "CONTINUE_DISCUSSION", "CONSENSUS_FAILED"]

/-- First keyword of the alternation matching at the head of the (trimmed)
input, together with the remaining characters.  No keyword of the grammar is
a prefix of another, so at most one alternative can match and the regex
backtracking order is irrelevant. -/
def firstKeyword (t : List Char) : Option (String × List Char) :=
  match ciDropKeyword "CONSENSUS_REACHED".data t with
  | some rest => some ("CONSENSUS_REACHED", rest)
  | none =>
    match ciDropKeyword "CONTINUE_DISCUSSION".data t with
    | some rest => some ("CONTINUE_DISCUSSION", rest)
    | none =>
      match ciDropKeyword "CONSENSUS_FAILED".data t with
      | some rest => some ("CONSENSUS_FAILED", rest)
      | none => none

/-- `Channel._parse_guidance`: match the regex
`^(CONSENSUS_REACHED|CONTINUE_DISCUSSION|CONSENSUS_FAILED)\s*:\s*(.*)` with
IGNORECASE and DOTALL against the stripped reply; on success return the
uppercased keyword and the captured payload stripped of surrounding
whitespace (with DOTALL the greedy `(.*)` captures to the end of the input,
so `\s*(.*)` followed by `.strip()` equals stripping everything after the
colon); on failure default to CONTINUE_DISCUSSION with no payload. -/
def parse_guidance (text : String) : String × Option String :=
  match firstKeyword (stripChars text.data) with
  | some kr =>
    match kr.2.dropWhile isPySpace with
    | ':' :: rest2 => (kr.1, some (String.mk (stripChars rest2)))
    | _ => ("CONTINUE_DISCUSSION", none)
  | none => ("CONTINUE_DISCUSSION", none)

/-! ## Data model -/

/-- An `Agent` of `api/app/agent.py`: a named remote model.  The field `oid`
models the Python object identity: every `Agent(...)` construction yields a
fresh identity, and two references are `==` (the default object equality used
by `in`) exactly when their identities coincide.  Well-formed states only
ever contain agents whose `oid` determines the whole value. -/
structure Agent where
  model : String
  oid : Nat
deriving DecidableEq, Repr

/-- An OpenAI-style role-tagged message dictionary. -/
structure Msg where
  role : String
  content : String
deriving DecidableEq, Repr

/-- `ChannelConfig` of `channel.py` with its Python defaults. -/
structure ChannelConfig where
  max_rounds : Nat := 8
  guiding_system_prompt : Option String := none
  participant_system_prompt : Option String := none
deriving DecidableEq, Repr

/-- One gateway invocation: which agent was called and with which messages.
The run functions below record every `Agent.chat` call in order. -/
structure Call where
  agent : Agent
  messages : List Msg
deriving DecidableEq, Repr

/-- The immutable part of a `Channel` instance: fields assigned in
`Channel.__init__` and never reassigned afterwards. -/
structure ChannelSetup where
  task : String
  guiding : Agent
  participants : List Agent
  config : ChannelConfig
deriving DecidableEq, Repr

/-- The mutable part of a `Channel` instance, plus the trace of gateway
calls.  The per-agent history dictionary keyed by object identity is
modelled positionally: `guidingHist` for the guiding agent and `partHists`
parallel to `participants` (faithful because every construction path builds
pairwise-distinct agent objects, so dictionary keys never collide). -/
structure ChannelState where
  rounds_executed : Nat
  stopped : Bool
  guidingHist : List Msg
  partHists : List (List Msg)
  calls : List Call
deriving DecidableEq, Repr

/-- The environment supplies the outcome of each gateway call.  `Agent.chat`
returns the model text or `None` on any transport or provider error; the
oracle is indexed by the number of calls made so far, so any schedule of
replies and failures can be expressed. -/
structure Env where
  oracle : Nat → Agent → List Msg → Option String

/-- Perform one `Agent.chat` call: consult the oracle and record the call. -/
def chatCall (env : Env) (st : ChannelState) (a : Agent) (msgs : List Msg) :
    Option String × ChannelState :=
  (env.oracle st.calls.length a msgs, { st with calls := st.calls ++ [⟨a, msgs⟩] })

/-! ## Channel construction -/

/-- Validation failures raised by `Channel.__init__`. -/
inductive InitError where
  | guidingInParticipants
  | noParticipants
deriving DecidableEq, Repr

/-- `Channel.__init__`: reject when the guiding agent is a member of the
participant list (Python `in`, which compares object identity because
`Agent` defines no `__eq__`), reject an empty participant list, strip the
task, and set up empty histories for the guiding agent and participants. -/
def Channel.init (task : String) (guiding_agent : Agent)
    (participant_agents : List Agent) (config : Option ChannelConfig) :
    Except InitError (ChannelSetup × ChannelState) :=
  if guiding_agent ∈ participant_agents then
    Except.error InitError.guidingInParticipants
  else if participant_agents.length = 0 then
    Except.error InitError.noParticipants
  else
    Except.ok
      ({ task := pyStrip task, guiding := guiding_agent,
         participants := participant_agents, config := config.getD {} },
       { rounds_executed := 0, stopped := false, guidingHist := [],
         partHists := participant_agents.map (fun _ => []), calls := [] })

/-! ## Prompt construction -/

/-- Default collaboration instructions for participants (`channel.py`). -/
def defaultParticipantPrompt : String :=
  "You are an expert AI assistant collaborating with other AI agents to solve the following task. Provide clear, concise, and well-reasoned answers. Do *not* attempt to mediate – focus on presenting your own reasoning."

/-- Default moderator instructions (`channel.py`). -/
def defaultGuidingPrompt : String :=
  "You are the moderator for a panel of AI agents working together to complete a task. After each round, you must evaluate their responses and decide whether they have reached consensus. Use the protocol below strictly:\n- Start your reply with \"CONSENSUS_REACHED:\" if they agree. Immediately after the colon, state the final agreed-upon answer in 1-3 sentences.\n- Otherwise, start with \"CONTINUE_DISCUSSION:\" followed by short guidance on what disagreements remain and how they might converge next round."

/-- The per-round user instruction sent to every participant. -/
def roundInstruction (round_idx : Nat) : String :=
  "Round " ++ toString round_idx ++ ": Provide your next answer or refinement. Keep it short (<200 words)."

/-- Heading of the peripheral-visibility system message of rounds after the
first. -/
def fellowHeading : String :=
  "Here are the most recent replies from your fellow agents:\n"

/-- Contents of the most recent message of each nonempty history, in
dictionary order (guiding agent first, then participants), with the history
of the participant at `i` removed — the iteration over `self._history` in
`Channel._build_participant_prompt` that skips the requesting agent. -/
def othersLastContents (st : ChannelState) (i : Nat) : List String :=
  (st.guidingHist :: st.partHists.eraseIdx i).filterMap
    (fun h => (h.getLast?).map Msg.content)

/-- `Channel._build_participant_prompt` for the participant at position `i`:
round 1 prepends the collaboration system prompt and the task; the agent
history follows; rounds after the first add one system message with the
latest replies of the other agents when any exist; a final user instruction
closes the prompt and is also appended to the history of that agent. -/
def buildParticipantPrompt (cs : ChannelSetup) (st : ChannelState)
    (i : Nat) (round_idx : Nat) : List Msg × ChannelState :=
  let msgs1 : List Msg :=
    if round_idx = 1 then
      [⟨"system", cs.config.participant_system_prompt.getD defaultParticipantPrompt⟩,
       ⟨"system", "TASK: " ++ cs.task⟩]
    else []
  let ownHist := st.partHists.getD i []
  let msgs2 := msgs1 ++ ownHist
  let msgs3 :=
    if round_idx > 1 then
      let others := othersLastContents st i
      if others.isEmpty then msgs2
      else msgs2 ++ [⟨"system", fellowHeading ++ pyJoin "\n---\n" others⟩]
    else msgs2
  let instr : Msg := ⟨"user", roundInstruction round_idx⟩
  (msgs3 ++ [instr],
   { st with partHists := st.partHists.set i (ownHist ++ [instr]) })

/-! ## Round execution -/

/-- Inner loop of `Channel._collect_participant_responses` over the
enumerated participants: build the prompt, call the gateway, recover a
failure (`None`) as the empty reply, append the reply to the history of
that participant as an assistant message, and collect the (agent, reply)
pairs in order. -/
def collectLoop (env : Env) (cs : ChannelSetup) (round_idx : Nat) :
    List (Nat × Agent) → ChannelState → List (Agent × String) × ChannelState
  | [], st => ([], st)
  | (i, a) :: rest, st =>
    let bp := buildParticipantPrompt cs st i round_idx
    let cc := chatCall env bp.2 a bp.1
    let response := cc.1.getD ""
    let st3 := { cc.2 with
      partHists := cc.2.partHists.set i ((cc.2.partHists.getD i []) ++ [⟨"assistant", response⟩]) }
    let tail := collectLoop env cs round_idx rest st3
    ((a, response) :: tail.1, tail.2)

/-- `Channel._collect_participant_responses`: nothing is collected once the
channel is stopped; otherwise every participant is consulted in order. -/
def collectParticipantResponses (env : Env) (cs : ChannelSetup)
    (st : ChannelState) (round_idx : Nat) : List (Agent × String) × ChannelState :=
  if st.stopped then ([], st)
  else collectLoop env cs round_idx cs.participants.enum st

/-- The combined user message shown to the moderator: one `Agentk: text`
line per participant reply, `k` counted from 1, joined by newlines. -/
def combineParticipantMsgs (pmsgs : List (Agent × String)) : String :=
  pyJoin "\n" (pmsgs.enum.map (fun p => "Agent" ++ toString (p.1 + 1) ++ ": " ++ p.2.2))

/-- The message list sent to the moderator by `Channel._request_guidance`:
only the round-1 system messages and the combined user message; the
accumulated moderator history is never part of it. -/
def guidanceMsgs (cs : ChannelSetup) (pmsgs : List (Agent × String))
    (round_idx : Nat) : List Msg :=
  (if round_idx = 1 then
    [⟨"system", cs.config.guiding_system_prompt.getD defaultGuidingPrompt⟩,
     ⟨"system", "TASK: " ++ cs.task⟩]
  else []) ++ [⟨"user", combineParticipantMsgs pmsgs⟩]

/-- `Channel._request_guidance`: when stopped, short-circuit without a call;
otherwise send `guidanceMsgs`, then record the raw reply (empty on gateway
failure) in the moderator history and return it. -/
def requestGuidance (env : Env) (cs : ChannelSetup) (st : ChannelState)
    (pmsgs : List (Agent × String)) (round_idx : Nat) : String × ChannelState :=
  if st.stopped then ("CONSENSUS_REACHED: Channel stopped.", st)
  else
    let cc := chatCall env st cs.guiding (guidanceMsgs cs pmsgs round_idx)
    let response := cc.1.getD ""
    (response, { cc.2 with guidingHist := cc.2.guidingHist ++ [⟨"assistant", response⟩] })

/-- System message of the final failure-summary request. -/
def failureSummaryPrompt : String :=
  "The discussion round limit was reached without consensus. Please provide a final summary in the exact format: CONSENSUS_FAILED: <summary of disagreements and best guess>."

/-- `Channel._request_failure_summary`: one more moderator call with the
failure-summary system message and the combined participant replies; the
raw reply (empty on gateway failure) is appended to the moderator history
and returned. -/
def requestFailureSummary (env : Env) (cs : ChannelSetup) (st : ChannelState)
    (pmsgs : List (Agent × String)) : String × ChannelState :=
  let cc := chatCall env st cs.guiding
    [⟨"system", failureSummaryPrompt⟩, ⟨"user", combineParticipantMsgs pmsgs⟩]
  let response := cc.1.getD ""
  (response, { cc.2 with guidingHist := cc.2.guidingHist ++ [⟨"assistant", response⟩] })

/-- Append the raw moderator guidance to the history of every participant
(the continue branch of `Channel.run`). -/
def appendGuidance (st : ChannelState) (graw : String) : ChannelState :=
  { st with partHists := st.partHists.map (fun h => h ++ [⟨"assistant", graw⟩]) }

/-- How the round loop of `Channel.run` was left: through one of its two
`return` statements, or by exhausting the iteration list, carrying the state
of the local variable `content` (`none` when never assigned, otherwise the
last parsed payload). -/
inductive LoopExit where
  | returned (answer : String)
  | exhausted (contentVar : Option (Option String))
deriving DecidableEq, Repr

/-- The fallback string of the code after the loop. -/
def fallbackAnswer : String :=
  "No consensus reached within the configured discussion limit."

/-- The `for round_idx in range(1, max_rounds + 1)` loop of `Channel.run`,
recursing over the list of round indices: set `rounds_executed`, collect
participants, request guidance, parse the verdict; return on consensus,
return the (possibly sentinel-prefixed) failure summary on the last round,
and otherwise share the guidance with every participant and continue. -/
def runRounds (env : Env) (cs : ChannelSetup) :
    List Nat → ChannelState → Option (Option String) → LoopExit × ChannelState
  | [], st, contentVar => (LoopExit.exhausted contentVar, st)
  | round_idx :: rest, st, _ =>
    let st0 := { st with rounds_executed := round_idx }
    let pr := collectParticipantResponses env cs st0 round_idx
    let gr := requestGuidance env cs pr.2 pr.1 round_idx
    let pg := parse_guidance gr.1
    if pg.1 = "CONSENSUS_REACHED" then
      (LoopExit.returned (pyStrip (pg.2.getD "")), { gr.2 with stopped := true })
    else if round_idx = cs.config.max_rounds then
      let fs := requestFailureSummary env cs { gr.2 with stopped := true } pr.1
      let answer :=
        if pyStartsWith (pyUpper fs.1) "CONSENSUS_FAILED" then fs.1
        else "CONSENSUS_FAILED: " ++ fs.1
      (LoopExit.returned answer, fs.2)
    else
      runRounds env cs rest (appendGuidance gr.2 gr.1) (some pg.2)

/-- Failure mode of `Channel.run` itself: reading the loop variable
`content` after a loop that never ran raises `UnboundLocalError`. -/
inductive RunError where
  | unboundLocal
deriving DecidableEq, Repr

/-- `Channel.run`: drive the loop over rounds `1 .. max_rounds`; when the
loop exits without returning, evaluate the defensive fallback expression
`content.strip() if content else <fallback>`, which raises when `content`
was never assigned and treats both `None` and the empty string as falsy. -/
def Channel.run (env : Env) (cs : ChannelSetup) (st : ChannelState) :
    Except RunError String × ChannelState :=
  match runRounds env cs (List.range' 1 cs.config.max_rounds) st none with
  | (LoopExit.returned a, st') => (Except.ok a, st')
  | (LoopExit.exhausted none, st') => (Except.error RunError.unboundLocal, st')
  | (LoopExit.exhausted (some c), st') =>
    (Except.ok (match c with
      | some s => if s = "" then fallbackAnswer else pyStrip s
      | none => fallbackAnswer), st')

/-! ## Run creation (router) -/

/-- The request body of `POST /channels` (`channel_router.py`). -/
structure CreateChannelRequest where
  task : String
  guiding_model : String
  participant_models : List String
  max_rounds : Int
deriving DecidableEq, Repr

/-- Synchronous rejections of run creation: the pydantic field validation
(`min_length=1` on participants, `ge=1 le=20` on `max_rounds`) and the
`ValueError`s of `Channel.__init__`. -/
inductive CreateError where
  | validationError
  | initError (e : InitError)
deriving DecidableEq, Repr

/-- `create_channel` of `channel_router.py`: pydantic validates the request
before the handler body runs; the handler then constructs one fresh `Agent`
object per model identifier (distinct object identities, modelled by
distinct `oid`s) and a `Channel`.  Only afterwards is the run scheduled on
the executor, so any error raised here rejects the run before any agent
call and before scheduling. -/
def create_channel (req : CreateChannelRequest) :
    Except CreateError (ChannelSetup × ChannelState) :=
  if req.participant_models.length < 1 then
    Except.error CreateError.validationError
  else if req.max_rounds < 1 ∨ 20 < req.max_rounds then
    Except.error CreateError.validationError
  else
    let guiding_agent : Agent := ⟨req.guiding_model, 0⟩
    let participant_agents := req.participant_models.enum.map (fun p => Agent.mk p.2 (p.1 + 1))
    match Channel.init req.task guiding_agent participant_agents
        (some { max_rounds := req.max_rounds.toNat }) with
    | Except.error e => Except.error (CreateError.initError e)
    | Except.ok cst => Except.ok cst

/-! ## Helper definitions for the theorems -/

/-- Number of gateway calls addressed to a given agent in a trace. -/
def guidingCalls (g : Agent) (calls : List Call) : Nat :=
  (calls.filter (fun c => c.agent == g)).length

/-- Content of the most recent message of a history, empty for an empty
history. -/
def lastContent (h : List Msg) : String :=
  match h.getLast? with
  | some m => m.content
  | none => ""

/-- Discriminator for `Except` results. -/
def exceptIsOk : Except ε α → Bool
  | Except.ok _ => true
  | Except.error _ => false

/-! ## Basic lemmas -/

theorem setGetElem?_self : ∀ (l : List α) (i : Nat) (v : α), i < l.length →
    (l.set i v)[i]? = some v
  | _ :: _, 0, _, _ => by simp
  | _ :: xs, i + 1, v, h => by
    simpa using setGetElem?_self xs i v (by simpa using h)

theorem setGetElem?_ne : ∀ (l : List α) (i j : Nat) (v : α), i ≠ j →
    (l.set i v)[j]? = l[j]?
  | [], _, _, _, _ => by simp
  | _ :: _, 0, 0, _, h => absurd rfl h
  | _ :: _, 0, _ + 1, _, _ => by simp
  | _ :: _, _ + 1, 0, _, _ => by simp
  | _ :: xs, i + 1, j + 1, v, h => by
    simpa using setGetElem?_ne xs i j v (fun hij => h (by omega))

theorem guidingCalls_append (g : Agent) (xs ys : List Call) :
    guidingCalls g (xs ++ ys) = guidingCalls g xs + guidingCalls g ys := by
  simp [guidingCalls, List.filter_append]

theorem guidingCalls_self (g : Agent) (m : List Msg) :
    guidingCalls g [⟨g, m⟩] = 1 := by
  simp [guidingCalls]

theorem guidingCalls_other {g : Agent} (c : Call) (h : c.agent ≠ g) :
    guidingCalls g [c] = 0 := by
  simp [guidingCalls, h]

theorem charsStartWith_of_append {p x : List Char} (ys : List Char)
    (h : charsStartWith x p = true) : charsStartWith (x ++ ys) p = true := by
  induction p generalizing x with
  | nil => simp [charsStartWith]
  | cons c cs ih =>
    cases x with
    | nil => simp [charsStartWith] at h
    | cons d ds =>
      simp only [charsStartWith, Bool.and_eq_true] at h ⊢
      exact ⟨h.1, by simpa using ih h.2⟩

/-! ## State-shape lemmas for the channel operations -/

theorem buildParticipantPrompt_snd (cs : ChannelSetup) (st : ChannelState)
    (i round_idx : Nat) :
    (buildParticipantPrompt cs st i round_idx).2 =
      { st with partHists := st.partHists.set i (st.partHists.getD i [] ++ [⟨"user", roundInstruction round_idx⟩]) } := rfl

theorem requestGuidance_not_stopped (env : Env) (cs : ChannelSetup)
    (st : ChannelState) (pmsgs : List (Agent × String)) (round_idx : Nat)
    (h : st.stopped = false) :
    requestGuidance env cs st pmsgs round_idx =
      ((env.oracle st.calls.length cs.guiding (guidanceMsgs cs pmsgs round_idx)).getD "",
       { st with
          calls := st.calls ++ [⟨cs.guiding, guidanceMsgs cs pmsgs round_idx⟩],
          guidingHist := st.guidingHist ++
            [⟨"assistant",
              (env.oracle st.calls.length cs.guiding (guidanceMsgs cs pmsgs round_idx)).getD ""⟩] }) := by
  simp [requestGuidance, chatCall, h]

theorem requestFailureSummary_eq (env : Env) (cs : ChannelSetup)
    (st : ChannelState) (pmsgs : List (Agent × String)) :
    requestFailureSummary env cs st pmsgs =
      ((env.oracle st.calls.length cs.guiding
          [⟨"system", failureSummaryPrompt⟩, ⟨"user", combineParticipantMsgs pmsgs⟩]).getD "",
       { st with
          calls := st.calls ++ [⟨cs.guiding,
            [⟨"system", failureSummaryPrompt⟩, ⟨"user", combineParticipantMsgs pmsgs⟩]⟩],
          guidingHist := st.guidingHist ++
            [⟨"assistant",
              (env.oracle st.calls.length cs.guiding
                [⟨"system", failureSummaryPrompt⟩,
                 ⟨"user", combineParticipantMsgs pmsgs⟩]).getD ""⟩] }) := by
  simp [requestFailureSummary, chatCall]

theorem collectLoop_state (env : Env) (cs : ChannelSetup) (round_idx : Nat) :
    ∀ (l : List (Nat × Agent)) (st : ChannelState),
      (collectLoop env cs round_idx l st).2.stopped = st.stopped
    ∧ (collectLoop env cs round_idx l st).2.rounds_executed = st.rounds_executed
    ∧ (collectLoop env cs round_idx l st).2.guidingHist = st.guidingHist
    ∧ (collectLoop env cs round_idx l st).2.calls.length = st.calls.length + l.length
    ∧ (collectLoop env cs round_idx l st).2.partHists.length = st.partHists.length
    ∧ (collectLoop env cs round_idx l st).1.length = l.length
  | [], st => by simp [collectLoop]
  | (i, a) :: rest, st => by
    have ih1 : ∀ st', (collectLoop env cs round_idx rest st').2.stopped = st'.stopped :=
      fun st' => (collectLoop_state env cs round_idx rest st').1
    have ih2 : ∀ st', (collectLoop env cs round_idx rest st').2.rounds_executed = st'.rounds_executed :=
      fun st' => (collectLoop_state env cs round_idx rest st').2.1
    have ih3 : ∀ st', (collectLoop env cs round_idx rest st').2.guidingHist = st'.guidingHist :=
      fun st' => (collectLoop_state env cs round_idx rest st').2.2.1
    have ih4 : ∀ st', (collectLoop env cs round_idx rest st').2.calls.length = st'.calls.length + rest.length :=
      fun st' => (collectLoop_state env cs round_idx rest st').2.2.2.1
    have ih5 : ∀ st', (collectLoop env cs round_idx rest st').2.partHists.length = st'.partHists.length :=
      fun st' => (collectLoop_state env cs round_idx rest st').2.2.2.2.1
    have ih6 : ∀ st', (collectLoop env cs round_idx rest st').1.length = rest.length :=
      fun st' => (collectLoop_state env cs round_idx rest st').2.2.2.2.2
    refine ⟨?_, ?_, ?_, ?_, ?_, ?_⟩ <;>
      simp [collectLoop, ih1, ih2, ih3, ih4, ih5, ih6, chatCall,
        buildParticipantPrompt_snd] <;> omega

theorem collectLoop_guidingCalls (env : Env) (cs : ChannelSetup) (round_idx : Nat)
    (g : Agent) :
    ∀ (l : List (Nat × Agent)) (st : ChannelState), (∀ p ∈ l, p.2 ≠ g) →
      guidingCalls g (collectLoop env cs round_idx l st).2.calls = guidingCalls g st.calls
  | [], st, _ => by simp [collectLoop]
  | (i, a) :: rest, st, h => by
    have ha : a ≠ g := by simpa using h (i, a) (by simp)
    have ih : ∀ st', guidingCalls g (collectLoop env cs round_idx rest st').2.calls =
        guidingCalls g st'.calls :=
      fun st' => collectLoop_guidingCalls env cs round_idx g rest st'
        (fun p hp => h p (List.mem_cons_of_mem _ hp))
    simp only [collectLoop]
    rw [ih]
    simp [chatCall, buildParticipantPrompt_snd, guidingCalls, List.filter_append, ha]

theorem collectPR_state (env : Env) (cs : ChannelSetup) (st : ChannelState)
    (round_idx : Nat) :
    (collectParticipantResponses env cs st round_idx).2.stopped = st.stopped
  ∧ (collectParticipantResponses env cs st round_idx).2.rounds_executed = st.rounds_executed
  ∧ (collectParticipantResponses env cs st round_idx).2.guidingHist = st.guidingHist
  ∧ (collectParticipantResponses env cs st round_idx).2.partHists.length = st.partHists.length := by
  have hl := collectLoop_state env cs round_idx cs.participants.enum st
  by_cases h : st.stopped <;>
    simp [collectParticipantResponses, h, hl.1, hl.2.1, hl.2.2.1, hl.2.2.2.2.1]

theorem collectPR_calls_length (env : Env) (cs : ChannelSetup) (st : ChannelState)
    (round_idx : Nat) (h : st.stopped = false) :
    (collectParticipantResponses env cs st round_idx).2.calls.length =
      st.calls.length + cs.participants.length := by
  have hl := (collectLoop_state env cs round_idx cs.participants.enum st).2.2.2.1
  simp [collectParticipantResponses, h, hl]

theorem collectPR_guidingCalls (env : Env) (cs : ChannelSetup) (st : ChannelState)
    (round_idx : Nat) (hg : cs.guiding ∉ cs.participants) :
    guidingCalls cs.guiding (collectParticipantResponses env cs st round_idx).2.calls =
      guidingCalls cs.guiding st.calls := by
  by_cases h : st.stopped
  · simp [collectParticipantResponses, h]
  · have : ∀ p ∈ cs.participants.enum, p.2 ≠ cs.guiding := by
      intro p hp hpg
      exact hg (hpg ▸ List.snd_mem_of_mem_enum hp)
    simp [collectParticipantResponses, h,
      collectLoop_guidingCalls env cs round_idx cs.guiding cs.participants.enum st this]

theorem requestGuidance_state (env : Env) (cs : ChannelSetup) (st : ChannelState)
    (pmsgs : List (Agent × String)) (round_idx : Nat) :
    (requestGuidance env cs st pmsgs round_idx).2.stopped = st.stopped
  ∧ (requestGuidance env cs st pmsgs round_idx).2.rounds_executed = st.rounds_executed
  ∧ (requestGuidance env cs st pmsgs round_idx).2.partHists = st.partHists := by
  by_cases h : st.stopped <;> simp [requestGuidance, chatCall, h]

theorem requestGuidance_guidingCalls (env : Env) (cs : ChannelSetup)
    (st : ChannelState) (pmsgs : List (Agent × String)) (round_idx : Nat)
    (h : st.stopped = false) :
    guidingCalls cs.guiding (requestGuidance env cs st pmsgs round_idx).2.calls =
      guidingCalls cs.guiding st.calls + 1 := by
  simp [requestGuidance_not_stopped env cs st pmsgs round_idx h,
    guidingCalls_append, guidingCalls_self]

theorem requestFailureSummary_state (env : Env) (cs : ChannelSetup)
    (st : ChannelState) (pmsgs : List (Agent × String)) :
    (requestFailureSummary env cs st pmsgs).2.stopped = st.stopped
  ∧ (requestFailureSummary env cs st pmsgs).2.rounds_executed = st.rounds_executed
  ∧ guidingCalls cs.guiding (requestFailureSummary env cs st pmsgs).2.calls =
      guidingCalls cs.guiding st.calls + 1
  ∧ (requestFailureSummary env cs st pmsgs).2.calls.getLast? =
      some ⟨cs.guiding, [⟨"system", failureSummaryPrompt⟩,
        ⟨"user", combineParticipantMsgs pmsgs⟩]⟩ := by
  refine ⟨?_, ?_, ?_, ?_⟩ <;>
    simp [requestFailureSummary, chatCall, guidingCalls_append, guidingCalls_self]

theorem appendGuidance_state (st : ChannelState) (graw : String) :
    (appendGuidance st graw).stopped = st.stopped
  ∧ (appendGuidance st graw).rounds_executed = st.rounds_executed
  ∧ (appendGuidance st graw).calls = st.calls
  ∧ (appendGuidance st graw).partHists.length = st.partHists.length := by
  simp [appendGuidance]

/-! ## Totality of the round loop -/

theorem runRounds_total (env : Env) (cs : ChannelSetup) :
    ∀ (l : List Nat) (st : ChannelState) (cv : Option (Option String)),
      l.getLast? = some cs.config.max_rounds →
      ∃ a st', runRounds env cs l st cv = (LoopExit.returned a, st')
  | [], _, _, h => by simp at h
  | r :: rest, st, cv, h => by
    simp only [runRounds]
    split
    · exact ⟨_, _, rfl⟩
    · split
      · exact ⟨_, _, rfl⟩
      · next hne =>
        cases rest with
        | nil => exact absurd (by simpa using h) hne
        | cons r2 rest2 =>
          refine runRounds_total env cs (r2 :: rest2) _ _ ?_
          simpa using h

theorem range'_one_getLast (m : Nat) :
    (List.range' 1 (m + 1)).getLast? = some (m + 1) := by
  rw [List.range'_concat]
  simp [Nat.add_comm]

theorem run_total (env : Env) (cs : ChannelSetup) (st : ChannelState)
    (h : 1 ≤ cs.config.max_rounds) :
    ∃ a st', Channel.run env cs st = (Except.ok a, st') := by
  obtain ⟨m, hm⟩ : ∃ m, cs.config.max_rounds = m + 1 :=
    ⟨cs.config.max_rounds - 1, by omega⟩
  obtain ⟨a, st', hrun⟩ := runRounds_total env cs
    (List.range' 1 cs.config.max_rounds) st none
    (by rw [hm]; exact range'_one_getLast m)
  exact ⟨a, st', by simp [Channel.run, hrun]⟩

theorem runRounds_rounds_le (env : Env) (cs : ChannelSetup) :
    ∀ (l : List Nat) (st : ChannelState) (cv : Option (Option String)),
      (∀ i ∈ l, i ≤ cs.config.max_rounds) →
      st.rounds_executed ≤ cs.config.max_rounds →
      (runRounds env cs l st cv).2.rounds_executed ≤ cs.config.max_rounds
  | [], st, cv, _, hst => by simpa [runRounds] using hst
  | r :: rest, st, cv, hl, hst => by
    have hr : r ≤ cs.config.max_rounds := hl r (by simp)
    have hrest : ∀ i ∈ rest, i ≤ cs.config.max_rounds := fun i hi => hl i (by simp [hi])
    have h1 : ∀ st' p r', (requestGuidance env cs st' p r').2.rounds_executed =
        st'.rounds_executed := fun st' p r' => (requestGuidance_state env cs st' p r').2.1
    have h2 : ∀ st' r', (collectParticipantResponses env cs st' r').2.rounds_executed =
        st'.rounds_executed := fun st' r' => (collectPR_state env cs st' r').2.1
    have h3 : ∀ st' p, (requestFailureSummary env cs st' p).2.rounds_executed =
        st'.rounds_executed := fun st' p => (requestFailureSummary_state env cs st' p).2.1
    have h4 : ∀ st' g, (appendGuidance st' g).rounds_executed = st'.rounds_executed :=
      fun st' g => (appendGuidance_state st' g).2.1
    simp only [runRounds]
    split
    · simpa [h1, h2] using hr
    · split
      · simpa [h3, h1, h2] using hr
      · exact runRounds_rounds_le env cs rest _ _ hrest (by simpa [h4, h1, h2] using hr)

theorem consensusFailedHead (s : String) :
    pyStartsWith (pyUpper ("CONSENSUS_FAILED: " ++ s)) "CONSENSUS_FAILED" = true := by
  have hdata : (pyUpper ("CONSENSUS_FAILED: " ++ s)).data =
      "CONSENSUS_FAILED: ".data.map Char.toUpper ++ s.data.map Char.toUpper := by
    simp [pyUpper, String.data_append]
  rw [pyStartsWith, hdata]
  exact charsStartWith_of_append _ (by decide)

theorem runRounds_noConsensus (env : Env) (cs : ChannelSetup)
    (hg : cs.guiding ∉ cs.participants)
    (hNC : ∀ n msgs,
      (parse_guidance ((env.oracle n cs.guiding msgs).getD "")).1 ≠ "CONSENSUS_REACHED") :
    ∀ (l : List Nat) (st : ChannelState) (cv : Option (Option String)),
      l.getLast? = some cs.config.max_rounds →
      (∀ i ∈ l.dropLast, i ≠ cs.config.max_rounds) →
      st.stopped = false →
      ∃ a st', runRounds env cs l st cv = (LoopExit.returned a, st')
        ∧ pyStartsWith (pyUpper a) "CONSENSUS_FAILED" = true
        ∧ st'.stopped = true
        ∧ guidingCalls cs.guiding st'.calls =
            guidingCalls cs.guiding st.calls + l.length + 1
        ∧ (∃ pm, st'.calls.getLast? = some ⟨cs.guiding,
            [⟨"system", failureSummaryPrompt⟩, ⟨"user", combineParticipantMsgs pm⟩]⟩)
  | [], _, _, h, _, _ => by simp at h
  | r :: rest, st, cv, hlast, hdrop, hstop => by
    have hst0 : (ChannelState.mk r st.stopped st.guidingHist st.partHists st.calls).stopped
        = false := hstop
    have hprstop : (collectParticipantResponses env cs
        ⟨r, st.stopped, st.guidingHist, st.partHists, st.calls⟩ r).2.stopped = false := by
      rw [(collectPR_state env cs _ r).1]; exact hstop
    have hprcount : guidingCalls cs.guiding (collectParticipantResponses env cs
        ⟨r, st.stopped, st.guidingHist, st.partHists, st.calls⟩ r).2.calls =
        guidingCalls cs.guiding st.calls :=
      collectPR_guidingCalls env cs _ r hg
    simp only [runRounds]
    split
    · next hcons =>
      exfalso
      rw [requestGuidance_not_stopped env cs _ _ _ hprstop] at hcons
      exact hNC _ _ hcons
    · next hncons =>
      split
      · next heq =>
        have hrest : rest = [] := by
          cases rest with
          | nil => rfl
          | cons r2 rest2 =>
            exact absurd heq (by simpa [List.dropLast] using fun hh => hdrop r (by simp [List.dropLast]) hh)
        subst hrest
        refine ⟨_, _, rfl, ?_, ?_, ?_, ?_⟩
        · split
          · next hsw => exact hsw
          · exact consensusFailedHead _
        · rw [(requestFailureSummary_state env cs _ _).1]
        · rw [(requestFailureSummary_state env cs _ _).2.2.1]
          rw [show (({ (requestGuidance env cs (collectParticipantResponses env cs
              ⟨r, st.stopped, st.guidingHist, st.partHists, st.calls⟩ r).2
              (collectParticipantResponses env cs
              ⟨r, st.stopped, st.guidingHist, st.partHists, st.calls⟩ r).1 r).2 with
              stopped := true }) : ChannelState).calls =
            (requestGuidance env cs (collectParticipantResponses env cs
              ⟨r, st.stopped, st.guidingHist, st.partHists, st.calls⟩ r).2
              (collectParticipantResponses env cs
              ⟨r, st.stopped, st.guidingHist, st.partHists, st.calls⟩ r).1 r).2.calls from rfl]
          rw [requestGuidance_not_stopped env cs _ _ _ hprstop]
          simp only [guidingCalls_append, guidingCalls_self]
          rw [hprcount]
          simp [List.length_cons]
        · exact ⟨_, (requestFailureSummary_state env cs _ _).2.2.2⟩
      · next hne =>
        cases rest with
        | nil => exact absurd (by simpa using hlast) hne
        | cons r2 rest2 =>
          have hapstop : (appendGuidance (requestGuidance env cs
              (collectParticipantResponses env cs
                ⟨r, st.stopped, st.guidingHist, st.partHists, st.calls⟩ r).2
              (collectParticipantResponses env cs
                ⟨r, st.stopped, st.guidingHist, st.partHists, st.calls⟩ r).1 r).2
              (requestGuidance env cs (collectParticipantResponses env cs
                ⟨r, st.stopped, st.guidingHist, st.partHists, st.calls⟩ r).2
              (collectParticipantResponses env cs
                ⟨r, st.stopped, st.guidingHist, st.partHists, st.calls⟩ r).1 r).1).stopped
              = false := by
            rw [(appendGuidance_state _ _).1, (requestGuidance_state env cs _ _ _).1]
            exact hprstop
          obtain ⟨a, st', hrun, hsw, hstop', hcount, hlastcall⟩ :=
            runRounds_noConsensus env cs hg hNC (r2 :: rest2) _ (some
              (parse_guidance (requestGuidance env cs (collectParticipantResponses env cs
                ⟨r, st.stopped, st.guidingHist, st.partHists, st.calls⟩ r).2
              (collectParticipantResponses env cs
                ⟨r, st.stopped, st.guidingHist, st.partHists, st.calls⟩ r).1 r).1).2)
              (by simpa using hlast)
              (by
                intro i hi
                exact hdrop i (by simpa [List.dropLast] using Or.inr hi))
              hapstop
          refine ⟨a, st', hrun, hsw, hstop', ?_, hlastcall⟩
          rw [hcount]
          rw [(appendGuidance_state _ _).2.2.1]
          rw [show ((requestGuidance env cs (collectParticipantResponses env cs
              ⟨r, st.stopped, st.guidingHist, st.partHists, st.calls⟩ r).2
              (collectParticipantResponses env cs
                ⟨r, st.stopped, st.guidingHist, st.partHists, st.calls⟩ r).1 r).2.calls) =
            ((collectParticipantResponses env cs
                ⟨r, st.stopped, st.guidingHist, st.partHists, st.calls⟩ r).2.calls ++
              [⟨cs.guiding, guidanceMsgs cs (collectParticipantResponses env cs
                ⟨r, st.stopped, st.guidingHist, st.partHists, st.calls⟩ r).1 r⟩]) from by
            rw [requestGuidance_not_stopped env cs _ _ _ hprstop]]
          simp only [guidingCalls_append, guidingCalls_self]
          rw [hprcount]
          simp [List.length_cons]
          omega

theorem getD_eq_getElem? (l : List α) (i : Nat) (d : α) :
    l.getD i d = (l[i]?).getD d := by
  simp [List.getD]

theorem enumFrom_fst_ge : ∀ (ps : List α) (m : Nat) (p : Nat × α),
    p ∈ List.enumFrom m ps → m ≤ p.1
  | [], _, _, h => by simp [List.enumFrom] at h
  | a :: ps', m, p, h => by
    rw [List.enumFrom] at h
    rcases List.mem_cons.mp h with rfl | h2
    · exact Nat.le_refl m
    · exact Nat.le_of_succ_le (enumFrom_fst_ge ps' (m + 1) p h2)

theorem collectLoop_partHists_untouched (env : Env) (cs : ChannelSetup)
    (round_idx : Nat) :
    ∀ (l : List (Nat × Agent)) (st : ChannelState) (j : Nat), (∀ p ∈ l, p.1 ≠ j) →
      (collectLoop env cs round_idx l st).2.partHists[j]? = st.partHists[j]?
  | [], st, j, _ => by simp [collectLoop]
  | (i, a) :: rest, st, j, h => by
    have hij : i ≠ j := by simpa using h (i, a) (by simp)
    have ih : ∀ st', (collectLoop env cs round_idx rest st').2.partHists[j]? =
        st'.partHists[j]? :=
      fun st' => collectLoop_partHists_untouched env cs round_idx rest st' j
        (fun p hp => h p (List.mem_cons_of_mem _ hp))
    simp only [collectLoop]
    rw [ih]
    simp only [chatCall, buildParticipantPrompt_snd]
    rw [setGetElem?_ne _ _ _ _ hij, setGetElem?_ne _ _ _ _ hij]

theorem collectLoop_enumFrom_fail (env : Env) (cs : ChannelSetup) (round_idx : Nat) :
    ∀ (ps : List Agent) (n : Nat) (st : ChannelState) (k : Nat) (a : Agent),
      ps.get? k = some a →
      (∀ msgs, env.oracle (st.calls.length + k) a msgs = none) →
      n + k < st.partHists.length →
      ((collectLoop env cs round_idx (List.enumFrom n ps) st).1.get? k = some (a, ""))
      ∧ ((collectLoop env cs round_idx (List.enumFrom n ps) st).2.partHists[n + k]? =
          some (st.partHists.getD (n + k) [] ++
            [⟨"user", roundInstruction round_idx⟩, ⟨"assistant", ""⟩]))
  | [], n, st, k, a, hk, _, _ => by simp at hk
  | a0 :: ps', n, st, 0, a, hk, hfail, hlen => by
    have ha : a0 = a := by simpa using hk
    subst ha
    rw [List.enumFrom]
    simp only [Nat.add_zero] at hfail hlen ⊢
    constructor
    · simp only [collectLoop, chatCall, buildParticipantPrompt_snd]
      have : env.oracle st.calls.length a0 (buildParticipantPrompt cs st n round_idx).1 = none := by
        simpa using hfail (buildParticipantPrompt cs st n round_idx).1
      simp [this]
    · simp only [collectLoop]
      rw [collectLoop_partHists_untouched env cs round_idx (List.enumFrom (n + 1) ps') _ n
        (fun p hp hpn => by
          have := enumFrom_fst_ge ps' (n + 1) p hp
          omega)]
      simp only [chatCall, buildParticipantPrompt_snd]
      have hlen' : n < st.partHists.length := by simpa using hlen
      rw [setGetElem?_self _ _ _ (by simpa using hlen')]
      have hget : (st.partHists.set n (st.partHists.getD n [] ++
          [⟨"user", roundInstruction round_idx⟩])).getD n [] =
          st.partHists.getD n [] ++ [⟨"user", roundInstruction round_idx⟩] := by
        rw [getD_eq_getElem?, setGetElem?_self _ _ _ hlen']
        rfl
      rw [hget]
      have : env.oracle st.calls.length a0 (buildParticipantPrompt cs st n round_idx).1 = none := by
        simpa using hfail (buildParticipantPrompt cs st n round_idx).1
      simp [this, buildParticipantPrompt_snd, chatCall]
  | a0 :: ps', n, st, k + 1, a, hk, hfail, hlen => by
    rw [List.enumFrom]
    have hk' : ps'.get? k = some a := by simpa using hk
    simp only [collectLoop]
    have ihall := collectLoop_enumFrom_fail env cs round_idx ps' (n + 1)
      { (chatCall env (buildParticipantPrompt cs st n round_idx).2 a0
          (buildParticipantPrompt cs st n round_idx).1).2 with
        partHists :=
          (chatCall env (buildParticipantPrompt cs st n round_idx).2 a0
            (buildParticipantPrompt cs st n round_idx).1).2.partHists.set n
            ((chatCall env (buildParticipantPrompt cs st n round_idx).2 a0
              (buildParticipantPrompt cs st n round_idx).1).2.partHists.getD n [] ++
              [⟨"assistant",
                (chatCall env (buildParticipantPrompt cs st n round_idx).2 a0
                  (buildParticipantPrompt cs st n round_idx).1).1.getD ""⟩]) }
      k a hk'
      (by
        intro msgs
        have : ((chatCall env (buildParticipantPrompt cs st n round_idx).2 a0
            (buildParticipantPrompt cs st n round_idx).1).2.calls).length =
            st.calls.length + 1 := by
          simp [chatCall, buildParticipantPrompt_snd]
        simp only [this]
        have harith : st.calls.length + 1 + k = st.calls.length + (k + 1) := by omega
        rw [harith]
        exact hfail msgs)
      (by
        simp only [chatCall, buildParticipantPrompt_snd]
        simp
        omega)
    constructor
    · exact ihall.1
    · have harith : n + (k + 1) = (n + 1) + k := by omega
      rw [harith]
      rw [ihall.2]
      have hne1 : n ≠ (n + 1) + k := by omega
      have hgetD : ∀ (l : List (List Msg)) (v : List Msg),
          (l.set n v).getD (n + 1 + k) [] = l.getD (n + 1 + k) [] := by
        intro l v
        rw [getD_eq_getElem?, setGetElem?_ne _ _ _ _ hne1, getD_eq_getElem?]
      simp only [chatCall, buildParticipantPrompt_snd]
      rw [hgetD, hgetD]

/-! ## Lemmas about the verdict grammar -/

theorem ciDrop_isSome : ∀ (kw l : List Char),
    (ciDropKeyword kw l).isSome = charsStartWith (l.map Char.toUpper) kw
  | [], l => by simp [ciDropKeyword, charsStartWith]
  | k :: ks, [] => by simp [ciDropKeyword, charsStartWith]
  | k :: ks, c :: cs => by
    by_cases h : c.toUpper = k
    · simp [ciDropKeyword, charsStartWith, h, ciDrop_isSome ks cs]
    · simp [ciDropKeyword, charsStartWith, h]

theorem ciDrop_append : ∀ (kw l rest : List Char), ciDropKeyword kw l = some rest →
    l.map Char.toUpper = kw ++ rest.map Char.toUpper
  | [], l, rest, h => by
    simp [ciDropKeyword] at h
    subst h
    simp
  | k :: ks, [], rest, h => by simp [ciDropKeyword] at h
  | k :: ks, c :: cs, rest, h => by
    rw [ciDropKeyword] at h
    by_cases hc : c.toUpper = k
    · rw [if_pos hc] at h
      have := ciDrop_append ks cs rest h
      simp [this, hc]
    · rw [if_neg hc] at h
      exact absurd h (by simp)

theorem charsStartWith_append_both : ∀ (p q x y : List Char),
    p ++ x = q ++ y → p.length ≤ q.length → charsStartWith q p = true
  | [], q, _, _, _, _ => by cases q <;> simp [charsStartWith]
  | _ :: _, [], _, _, _, hlen => by simp at hlen
  | c :: cs, d :: ds, x, y, h, hlen => by
    simp only [List.cons_append, List.cons.injEq] at h
    simp only [charsStartWith, Bool.and_eq_true]
    exact ⟨by simp [h.1], charsStartWith_append_both cs ds x y h.2 (by simpa using hlen)⟩

theorem ciDrop_not_both (kw1 kw2 t r1 r2 : List Char)
    (hlen : kw1.length ≤ kw2.length) (hbad : charsStartWith kw2 kw1 = false)
    (h1 : ciDropKeyword kw1 t = some r1) (h2 : ciDropKeyword kw2 t = some r2) :
    False := by
  have e1 := ciDrop_append kw1 t r1 h1
  have e2 := ciDrop_append kw2 t r2 h2
  have := charsStartWith_append_both kw1 kw2 (r1.map Char.toUpper) (r2.map Char.toUpper)
    (e1.symm.trans e2) hlen
  rw [hbad] at this
  exact absurd this (by simp)

theorem filterMap_getLast_of_nonempty : ∀ (hs : List (List Msg)),
    (∀ h ∈ hs, h ≠ []) →
    hs.filterMap (fun h => (h.getLast?).map Msg.content) = hs.map lastContent
  | [], _ => rfl
  | h :: hs', hne => by
    have hhd : h ≠ [] := hne h (by simp)
    obtain ⟨m, hm⟩ : ∃ m, h.getLast? = some m := by
      cases hh : h.getLast? with
      | none => exact absurd (List.getLast?_eq_none_iff.mp hh) hhd
      | some m => exact ⟨m, rfl⟩
    have ih := filterMap_getLast_of_nonempty hs' (fun x hx => hne x (List.mem_cons_of_mem _ hx))
    simp [List.filterMap_cons, hm, ih, lastContent]

/-! ## Bridging lemmas between the loop and `Channel.run` -/

theorem run_eq_of_returned (env : Env) (cs : ChannelSetup) (st : ChannelState)
    {a : String} {st' : ChannelState}
    (h : runRounds env cs (List.range' 1 cs.config.max_rounds) st none =
      (LoopExit.returned a, st')) :
    Channel.run env cs st = (Except.ok a, st') := by
  unfold Channel.run
  rw [h]

theorem run_snd_eq (env : Env) (cs : ChannelSetup) (st : ChannelState) :
    (Channel.run env cs st).2 =
      (runRounds env cs (List.range' 1 cs.config.max_rounds) st none).2 := by
  unfold Channel.run
  rcases h : runRounds env cs (List.range' 1 cs.config.max_rounds) st none with ⟨e, s⟩
  cases e with
  | returned a => simp
  | exhausted cv => cases cv <;> simp

theorem runRounds_consensus_head (env : Env) (cs : ChannelSetup) (l : List Nat)
    (r : Nat) (st : ChannelState) (cv : Option (Option String))
    (hstop : st.stopped = false)
    (hMod : ∀ msgs, env.oracle (st.calls.length + cs.participants.length) cs.guiding msgs =
      some "CONSENSUS_REACHED: 42") :
    (runRounds env cs (r :: l) st cv).1 = LoopExit.returned "42"
  ∧ (runRounds env cs (r :: l) st cv).2.rounds_executed = r
  ∧ (runRounds env cs (r :: l) st cv).2.stopped = true := by
  have hprstop : (collectParticipantResponses env cs
      ⟨r, st.stopped, st.guidingHist, st.partHists, st.calls⟩ r).2.stopped = false := by
    rw [(collectPR_state env cs _ r).1]
    exact hstop
  have hprlen : (collectParticipantResponses env cs
      ⟨r, st.stopped, st.guidingHist, st.partHists, st.calls⟩ r).2.calls.length =
      st.calls.length + cs.participants.length :=
    collectPR_calls_length env cs _ r hstop
  have hreply : (requestGuidance env cs (collectParticipantResponses env cs
      ⟨r, st.stopped, st.guidingHist, st.partHists, st.calls⟩ r).2
      (collectParticipantResponses env cs
        ⟨r, st.stopped, st.guidingHist, st.partHists, st.calls⟩ r).1 r).1 =
      "CONSENSUS_REACHED: 42" := by
    rw [requestGuidance_not_stopped env cs _ _ _ hprstop]
    rw [show (((env.oracle (collectParticipantResponses env cs
        ⟨r, st.stopped, st.guidingHist, st.partHists, st.calls⟩ r).2.calls.length cs.guiding
        (guidanceMsgs cs (collectParticipantResponses env cs
          ⟨r, st.stopped, st.guidingHist, st.partHists, st.calls⟩ r).1 r)).getD "",
        _) : String × ChannelState).1 =
      (env.oracle (collectParticipantResponses env cs
        ⟨r, st.stopped, st.guidingHist, st.partHists, st.calls⟩ r).2.calls.length cs.guiding
        (guidanceMsgs cs (collectParticipantResponses env cs
          ⟨r, st.stopped, st.guidingHist, st.partHists, st.calls⟩ r).1 r)).getD "" from rfl]
    rw [hprlen, hMod]
    rfl
  have hrounds : (requestGuidance env cs (collectParticipantResponses env cs
      ⟨r, st.stopped, st.guidingHist, st.partHists, st.calls⟩ r).2
      (collectParticipantResponses env cs
        ⟨r, st.stopped, st.guidingHist, st.partHists, st.calls⟩ r).1 r).2.rounds_executed = r := by
    rw [(requestGuidance_state env cs _ _ _).2.1, (collectPR_state env cs _ r).2.1]
  simp only [runRounds]
  rw [hreply]
  rw [show parse_guidance "CONSENSUS_REACHED: 42" = ("CONSENSUS_REACHED", some "42") from by decide]
  rw [if_pos (show (("CONSENSUS_REACHED", (some "42" : Option String)).1 = "CONSENSUS_REACHED") from rfl)]
  refine ⟨congrArg LoopExit.returned (by decide), hrounds, rfl⟩

/-! ## Concrete scenarios for counterexamples and witnesses -/

/-- Concrete guiding agent (as built by the router: fresh identity 0). -/
def exGuiding : Agent := ⟨"gm", 0⟩

/-- Concrete single participant (fresh identity 1). -/
def exParticipant : Agent := ⟨"pm", 1⟩

/-- A one-participant setup with overridden (short) system prompts and the
given round budget. -/
def exSetup (m : Nat) : ChannelSetup :=
  ⟨"t", exGuiding, [exParticipant], ⟨m, some "gs", some "ps"⟩⟩

/-- The state produced by `Channel.__init__` for one participant. -/
def exState : ChannelState := ⟨0, false, [], [[]], []⟩

/-- A gateway in which every call fails. -/
def noneEnv : Env := ⟨fun _ _ _ => none⟩

/-- Gateway schedule for the C1 scenario (`max_rounds = 2`): both moderator
verdict calls (indices 1 and 3) fail, the failure-summary call (index 4)
returns `S`, participants reply `p`. -/
def c1Env : Env :=
  ⟨fun n _ _ =>
    if n = 1 then none else if n = 3 then none
    else if n = 4 then some "S" else some "p"⟩

/-- Gateway schedule for the C3 scenario (`max_rounds = 2`): the round-1
verdict (index 1) asks to continue, the round-2 verdict (index 3) declares
consensus, participants reply `p`. -/
def c3Env : Env :=
  ⟨fun n _ _ =>
    if n = 1 then some "CONTINUE_DISCUSSION: keep going"
    else if n = 3 then some "CONSENSUS_REACHED: done" else some "p"⟩

/-- Gateway schedule for the C4 scenario (`max_rounds = 1`): the verdict
asks to continue and the failure-summary reply is lower-case and lacks the
colon. -/
def c4Env : Env :=
  ⟨fun n _ _ =>
    if n = 2 then some "consensus_failed but lowercase"
    else some "CONTINUE_DISCUSSION: x"⟩

/-- Gateway schedule for the C7 scenario: the round-1 moderator call (index
1, after one participant call) declares consensus on 42. -/
def c7Env : Env :=
  ⟨fun n _ _ => if n = 1 then some "CONSENSUS_REACHED: 42" else some "p"⟩

/-- Gateway schedule for the C8 witness: the round-1 participant call
(index 0) fails, the moderator then declares consensus. -/
def c8Env : Env :=
  ⟨fun n _ _ =>
    if n = 0 then none
    else if n = 1 then some "CONSENSUS_REACHED: done" else some "p"⟩

/-! ## Claims -/

/-- C1, counterexample: the claim says a gateway failure on the moderator
call makes the run terminate in an error state.  In the code
`Agent.chat` returns `None` on failure and `_request_guidance` recovers it
as the empty reply (`or ""`), which parses as CONTINUE_DISCUSSION.  In this
two-round scenario both moderator verdict calls fail (call 1 returns
`none`), yet the run continues into round 2, makes five calls in total, and
ends as a CONSENSUS_FAILED summary with an `ok` result — not an error. -/
theorem c1_counterexample :
    (Channel.run c1Env (exSetup 2) exState).1 = Except.ok "CONSENSUS_FAILED: S"
  ∧ (Channel.run c1Env (exSetup 2) exState).2.calls.length = 5
  ∧ ((Channel.run c1Env (exSetup 2) exState).2.calls.getD 1 ⟨exGuiding, []⟩).agent = exGuiding
  ∧ c1Env.oracle 1 exGuiding
      ((Channel.run c1Env (exSetup 2) exState).2.calls.getD 1 ⟨exGuiding, []⟩).messages = none
  ∧ (Channel.run c1Env (exSetup 2) exState).2.rounds_executed = 2 :=
  ⟨rfl, rfl, rfl, rfl, rfl⟩

/-- C1, amended: a gateway failure on the moderator call is recovered as an
empty reply, which parses as CONTINUE_DISCUSSION; the run keeps going and,
for any oracle whatsoever, a run with a positive round budget always ends
with an `ok` result, never in an error state. -/
theorem c1_moderator_failure_recovered :
    (∀ (env : Env) (cs : ChannelSetup) (st : ChannelState)
        (pmsgs : List (Agent × String)) (round_idx : Nat),
      st.stopped = false →
      (∀ msgs, env.oracle st.calls.length cs.guiding msgs = none) →
      (requestGuidance env cs st pmsgs round_idx).1 = "")
  ∧ parse_guidance "" = ("CONTINUE_DISCUSSION", none)
  ∧ (∀ (env : Env) (cs : ChannelSetup) (st : ChannelState),
      1 ≤ cs.config.max_rounds →
      ∃ a st', Channel.run env cs st = (Except.ok a, st')) := by
  refine ⟨?_, by decide, fun env cs st hM => run_total env cs st hM⟩
  intro env cs st pmsgs round_idx h hfail
  rw [requestGuidance_not_stopped env cs st pmsgs round_idx h]
  simp [hfail]

/-- C1, witness for the amended theorem at a concrete all-failing oracle. -/
theorem c1_witness :
    (requestGuidance noneEnv (exSetup 2) exState [] 1).1 = ""
  ∧ (∃ a st', Channel.run noneEnv (exSetup 2) exState = (Except.ok a, st')) :=
  ⟨c1_moderator_failure_recovered.1 noneEnv (exSetup 2) exState [] 1 rfl (fun _ => rfl),
   c1_moderator_failure_recovered.2.2 noneEnv (exSetup 2) exState (by decide)⟩

/-- C2: evaluation of `create_channel` at the failing input.  A request
whose moderator model equals the single participant model is accepted: the
router builds fresh `Agent` objects, so the identity-based membership test
in `Channel.__init__` never fires for equal model strings, and the run is
created (and would then be scheduled).  The empty-participants and
`max_rounds` bounds checks, by contrast, do reject synchronously. -/
theorem c2_duplicate_moderator_accepted :
    create_channel ⟨"t", "m", ["m"], 8⟩ =
      Except.ok (⟨"t", ⟨"m", 0⟩, [⟨"m", 1⟩], ⟨8, none, none⟩⟩,
        ⟨0, false, [], [[]], []⟩)
  ∧ create_channel ⟨"t", "g", [], 8⟩ = Except.error CreateError.validationError
  ∧ create_channel ⟨"t", "g", ["p"], 0⟩ = Except.error CreateError.validationError
  ∧ create_channel ⟨"t", "g", ["p"], 21⟩ = Except.error CreateError.validationError :=
  ⟨rfl, rfl, rfl, rfl⟩

/-- C3, counterexample: the claim says the moderator is invoked with its
own accumulated history plus one user message.  In round 2 of this
scenario the moderator call (trace index 3) carries only the single
combined user message; the accumulated moderator history (which contains
the round-1 reply as an assistant message) is not part of the prompt. -/
theorem c3_counterexample :
    ((Channel.run c3Env (exSetup 2) exState).2.calls.getD 3 ⟨exGuiding, []⟩) =
      ⟨exGuiding, [⟨"user", "Agent1: p"⟩]⟩
  ∧ (Channel.run c3Env (exSetup 2) exState).2.guidingHist.getD 0 ⟨"", ""⟩ =
      ⟨"assistant", "CONTINUE_DISCUSSION: keep going"⟩
  ∧ Msg.mk "assistant" "CONTINUE_DISCUSSION: keep going" ∉
      ((Channel.run c3Env (exSetup 2) exState).2.calls.getD 3 ⟨exGuiding, []⟩).messages :=
  ⟨rfl, rfl, by decide⟩

/-- C3, amended: in every round the moderator is invoked with exactly the
round-1 system messages (first round only) plus one user message
concatenating the participant replies as `Agentk: text` lines joined by
newlines — not with its accumulated history — and the raw reply is appended
to the moderator history. -/
theorem c3_moderator_prompt (env : Env) (cs : ChannelSetup) (st : ChannelState)
    (pmsgs : List (Agent × String)) (round_idx : Nat) (h : st.stopped = false) :
    (requestGuidance env cs st pmsgs round_idx).2.calls =
      st.calls ++ [⟨cs.guiding, guidanceMsgs cs pmsgs round_idx⟩]
  ∧ guidanceMsgs cs pmsgs round_idx =
      (if round_idx = 1 then
        [⟨"system", cs.config.guiding_system_prompt.getD defaultGuidingPrompt⟩,
         ⟨"system", "TASK: " ++ cs.task⟩] else [])
      ++ [⟨"user", combineParticipantMsgs pmsgs⟩]
  ∧ combineParticipantMsgs pmsgs =
      pyJoin "\n" (pmsgs.enum.map (fun p => "Agent" ++ toString (p.1 + 1) ++ ": " ++ p.2.2))
  ∧ (requestGuidance env cs st pmsgs round_idx).2.guidingHist =
      st.guidingHist ++ [⟨"assistant", (requestGuidance env cs st pmsgs round_idx).1⟩] := by
  have hg := requestGuidance_not_stopped env cs st pmsgs round_idx h
  refine ⟨?_, rfl, rfl, ?_⟩
  · rw [hg]
  · rw [hg]

/-- C3, witness for the amended theorem. -/
theorem c3_witness :
    (requestGuidance noneEnv (exSetup 2) exState [] 1).2.calls =
      exState.calls ++ [⟨(exSetup 2).guiding, guidanceMsgs (exSetup 2) [] 1⟩]
  ∧ guidanceMsgs (exSetup 2) [] 1 =
      (if (1 : Nat) = 1 then
        [⟨"system", (exSetup 2).config.guiding_system_prompt.getD defaultGuidingPrompt⟩,
         ⟨"system", "TASK: " ++ (exSetup 2).task⟩] else [])
      ++ [⟨"user", combineParticipantMsgs []⟩]
  ∧ combineParticipantMsgs [] =
      pyJoin "\n" (([] : List (Agent × String)).enum.map
        (fun p => "Agent" ++ toString (p.1 + 1) ++ ": " ++ p.2.2))
  ∧ (requestGuidance noneEnv (exSetup 2) exState [] 1).2.guidingHist =
      exState.guidingHist ++
        [⟨"assistant", (requestGuidance noneEnv (exSetup 2) exState [] 1).1⟩] :=
  c3_moderator_prompt noneEnv (exSetup 2) exState [] 1 rfl

/-- C4, counterexample: the claim says the returned answer starts with the
prefix `CONSENSUS_FAILED:` even when the failure-summary reply omits it.
The code only checks `failure_summary.upper().startswith("CONSENSUS_FAILED")`
(no colon, after upper-casing), so a lower-case reply without a colon is
returned verbatim and the answer does not start with the literal prefix. -/
theorem c4_counterexample :
    (Channel.run c4Env (exSetup 1) exState).1 =
      Except.ok "consensus_failed but lowercase"
  ∧ pyStartsWith "consensus_failed but lowercase" "CONSENSUS_FAILED:" = false
  ∧ (Channel.run c4Env (exSetup 1) exState).2.stopped = true :=
  ⟨rfl, by decide, rfl⟩

/-- C4, amended: in a run whose moderator never declares consensus, the run
returns `ok`, exactly one failure-summary call is made after the
`max_rounds` verdict calls (so the moderator is called `max_rounds + 1`
times and the failure-summary call is the last call of the trace), the run
is marked stopped, and the returned answer upper-cased starts with
`CONSENSUS_FAILED` (the code prepends `CONSENSUS_FAILED: ` whenever the
upper-cased reply does not already start with that keyword). -/
theorem c4_round_limit_failure_summary (env : Env) (cs : ChannelSetup)
    (st : ChannelState)
    (hM : 1 ≤ cs.config.max_rounds) (hstop : st.stopped = false)
    (hg : cs.guiding ∉ cs.participants)
    (hNC : ∀ n msgs,
      (parse_guidance ((env.oracle n cs.guiding msgs).getD "")).1 ≠ "CONSENSUS_REACHED") :
    ∃ a st', Channel.run env cs st = (Except.ok a, st')
      ∧ pyStartsWith (pyUpper a) "CONSENSUS_FAILED" = true
      ∧ st'.stopped = true
      ∧ guidingCalls cs.guiding st'.calls =
          guidingCalls cs.guiding st.calls + cs.config.max_rounds + 1
      ∧ (∃ pm, st'.calls.getLast? = some ⟨cs.guiding,
          [⟨"system", failureSummaryPrompt⟩, ⟨"user", combineParticipantMsgs pm⟩]⟩) := by
  obtain ⟨m, hm⟩ : ∃ m, cs.config.max_rounds = m + 1 :=
    ⟨cs.config.max_rounds - 1, by omega⟩
  have hlast : (List.range' 1 cs.config.max_rounds).getLast? =
      some cs.config.max_rounds := by
    rw [hm]
    exact range'_one_getLast m
  have hdrop : ∀ i ∈ (List.range' 1 cs.config.max_rounds).dropLast,
      i ≠ cs.config.max_rounds := by
    rw [hm, List.range'_concat, List.dropLast_concat]
    intro i hi
    have := (List.mem_range'_1.mp hi).2
    omega
  obtain ⟨a, st', hrun, h1, h2, h3, h4⟩ :=
    runRounds_noConsensus env cs hg hNC (List.range' 1 cs.config.max_rounds)
      st none hlast hdrop hstop
  refine ⟨a, st', run_eq_of_returned env cs st hrun, h1, h2, ?_, h4⟩
  rw [h3, List.length_range']

/-- C4, witness for the amended theorem at a concrete all-failing oracle. -/
theorem c4_witness :
    ∃ a st', Channel.run noneEnv (exSetup 1) exState = (Except.ok a, st')
      ∧ pyStartsWith (pyUpper a) "CONSENSUS_FAILED" = true
      ∧ st'.stopped = true
      ∧ guidingCalls (exSetup 1).guiding st'.calls =
          guidingCalls (exSetup 1).guiding exState.calls + (exSetup 1).config.max_rounds + 1
      ∧ (∃ pm, st'.calls.getLast? = some ⟨(exSetup 1).guiding,
          [⟨"system", failureSummaryPrompt⟩, ⟨"user", combineParticipantMsgs pm⟩]⟩) :=
  c4_round_limit_failure_summary noneEnv (exSetup 1) exState (by decide) rfl
    (by decide)
    (fun n msgs => (by decide : (parse_guidance "").1 ≠ "CONSENSUS_REACHED"))

/-- C5: the verdict grammar.  First, the concrete multi-line,
case-insensitive example parses to CONSENSUS_REACHED with the payload
stripped.  Second, a reply whose trimmed upper-case form starts with none
of the three sentinel keywords parses to CONTINUE_DISCUSSION with an
absent payload.  Third, whenever one of the three keywords matches
case-insensitively at the head of the trimmed reply, the rest must consist
of optional whitespace, a colon and the payload (matched across line
breaks to the end, and stripped); otherwise the default is returned —
exactly the semantics of the regex with IGNORECASE and DOTALL. -/
theorem c5_verdict_grammar :
    parse_guidance "consensus_reached:\nLine1\nLine2" =
      ("CONSENSUS_REACHED", some "Line1\nLine2")
  ∧ (∀ s : String,
      (∀ kw ∈ sentinelKeywords, pyStartsWith (pyUpper (pyStrip s)) kw = false) →
      parse_guidance s = ("CONTINUE_DISCUSSION", none))
  ∧ (∀ (s kw : String) (rest : List Char), kw ∈ sentinelKeywords →
      ciDropKeyword kw.data (stripChars s.data) = some rest →
      parse_guidance s =
        match rest.dropWhile isPySpace with
        | ':' :: rest2 => (kw, some (String.mk (stripChars rest2)))
        | _ => ("CONTINUE_DISCUSSION", none)) := by
  refine ⟨by decide, ?_, ?_⟩
  · intro s hkw
    have e1 : ciDropKeyword "CONSENSUS_REACHED".data (stripChars s.data) = none := by
      have hs := ciDrop_isSome "CONSENSUS_REACHED".data (stripChars s.data)
      have hk : charsStartWith ((stripChars s.data).map Char.toUpper)
          "CONSENSUS_REACHED".data = false :=
        hkw "CONSENSUS_REACHED" (by simp [sentinelKeywords])
      rw [hk] at hs
      cases hcd : ciDropKeyword "CONSENSUS_REACHED".data (stripChars s.data) with
      | none => rfl
      | some r => rw [hcd] at hs; simp at hs
    have e2 : ciDropKeyword "CONTINUE_DISCUSSION".data (stripChars s.data) = none := by
      have hs := ciDrop_isSome "CONTINUE_DISCUSSION".data (stripChars s.data)
      have hk : charsStartWith ((stripChars s.data).map Char.toUpper)
          "CONTINUE_DISCUSSION".data = false :=
        hkw "CONTINUE_DISCUSSION" (by simp [sentinelKeywords])
      rw [hk] at hs
      cases hcd : ciDropKeyword "CONTINUE_DISCUSSION".data (stripChars s.data) with
      | none => rfl
      | some r => rw [hcd] at hs; simp at hs
    have e3 : ciDropKeyword "CONSENSUS_FAILED".data (stripChars s.data) = none := by
      have hs := ciDrop_isSome "CONSENSUS_FAILED".data (stripChars s.data)
      have hk : charsStartWith ((stripChars s.data).map Char.toUpper)
          "CONSENSUS_FAILED".data = false :=
        hkw "CONSENSUS_FAILED" (by simp [sentinelKeywords])
      rw [hk] at hs
      cases hcd : ciDropKeyword "CONSENSUS_FAILED".data (stripChars s.data) with
      | none => rfl
      | some r => rw [hcd] at hs; simp at hs
    simp [parse_guidance, firstKeyword, e1, e2, e3]
  · intro s kw rest hmem hcd
    rcases (by simpa [sentinelKeywords] using hmem :
        kw = "CONSENSUS_REACHED" ∨ kw = "CONTINUE_DISCUSSION" ∨ kw = "CONSENSUS_FAILED")
      with rfl | rfl | rfl
    · simp only [parse_guidance, firstKeyword, hcd]
    · have e1 : ciDropKeyword "CONSENSUS_REACHED".data (stripChars s.data) = none := by
        cases hcr : ciDropKeyword "CONSENSUS_REACHED".data (stripChars s.data) with
        | none => rfl
        | some r1 =>
          exact (ciDrop_not_both "CONSENSUS_REACHED".data "CONTINUE_DISCUSSION".data
            (stripChars s.data) r1 rest (by decide) (by decide) hcr hcd).elim
      simp only [parse_guidance, firstKeyword, e1, hcd]
    · have e1 : ciDropKeyword "CONSENSUS_REACHED".data (stripChars s.data) = none := by
        cases hcr : ciDropKeyword "CONSENSUS_REACHED".data (stripChars s.data) with
        | none => rfl
        | some r1 =>
          exact (ciDrop_not_both "CONSENSUS_FAILED".data "CONSENSUS_REACHED".data
            (stripChars s.data) rest r1 (by decide) (by decide) hcd hcr).elim
      have e2 : ciDropKeyword "CONTINUE_DISCUSSION".data (stripChars s.data) = none := by
        cases hcr : ciDropKeyword "CONTINUE_DISCUSSION".data (stripChars s.data) with
        | none => rfl
        | some r1 =>
          exact (ciDrop_not_both "CONSENSUS_FAILED".data "CONTINUE_DISCUSSION".data
            (stripChars s.data) rest r1 (by decide) (by decide) hcd hcr).elim
      simp only [parse_guidance, firstKeyword, e1, e2, hcd]

/-- C5, witness: the no-keyword default and a case-insensitive positive
instance of the characterization. -/
theorem c5_witness :
    parse_guidance "I think we are close" = ("CONTINUE_DISCUSSION", none)
  ∧ parse_guidance "Consensus_Failed : they diverge" =
      ("CONSENSUS_FAILED", some "they diverge") :=
  ⟨c5_verdict_grammar.2.1 "I think we are close" (by decide),
   (c5_verdict_grammar.2.2 "Consensus_Failed : they diverge" "CONSENSUS_FAILED"
     " : they diverge".data (by decide) (by decide)).trans (by decide)⟩

/-- C6: for a valid configuration the final `rounds_executed` of a run
never exceeds `max_rounds` (the loop only ever assigns the loop index,
which ranges over `1 .. max_rounds`). -/
theorem c6_rounds_le (env : Env) (cs : ChannelSetup) (st : ChannelState)
    (h1 : 1 ≤ cs.config.max_rounds) (h2 : cs.config.max_rounds ≤ 20)
    (h3 : cs.participants ≠ []) (h4 : st.rounds_executed = 0) :
    (Channel.run env cs st).2.rounds_executed ≤ cs.config.max_rounds := by
  rw [run_snd_eq]
  exact runRounds_rounds_le env cs _ st none
    (fun i hi => by have := (List.mem_range'_1.mp hi).2; omega)
    (by rw [h4]; exact Nat.zero_le _)

/-- C6, witness at a concrete run. -/
theorem c6_witness :
    (Channel.run noneEnv (exSetup 2) exState).2.rounds_executed ≤
      (exSetup 2).config.max_rounds :=
  c6_rounds_le noneEnv (exSetup 2) exState (by decide) (by decide) (by decide) rfl

/-- C7: when the round-1 moderator reply is exactly
`CONSENSUS_REACHED: 42` (the round-1 moderator call is the call made right
after the participant calls), the run ends with answer `42`,
`rounds_executed = 1` and the stop flag set. -/
theorem c7_first_round_consensus (env : Env) (cs : ChannelSetup) (st : ChannelState)
    (hM : 1 ≤ cs.config.max_rounds) (hstop : st.stopped = false)
    (hMod : ∀ msgs, env.oracle (st.calls.length + cs.participants.length) cs.guiding msgs =
      some "CONSENSUS_REACHED: 42") :
    (Channel.run env cs st).1 = Except.ok "42"
  ∧ (Channel.run env cs st).2.rounds_executed = 1
  ∧ (Channel.run env cs st).2.stopped = true := by
  obtain ⟨m, hm⟩ : ∃ m, cs.config.max_rounds = m + 1 :=
    ⟨cs.config.max_rounds - 1, by omega⟩
  have hrun := runRounds_consensus_head env cs (List.range' 2 m) 1 st none hstop hMod
  have hpair : runRounds env cs (1 :: List.range' 2 m) st none =
      (LoopExit.returned "42", (runRounds env cs (1 :: List.range' 2 m) st none).2) := by
    rw [← hrun.1]
  have hlist : List.range' 1 cs.config.max_rounds = 1 :: List.range' 2 m := by
    rw [hm]
    rfl
  have hr : Channel.run env cs st =
      (Except.ok "42", (runRounds env cs (1 :: List.range' 2 m) st none).2) := by
    unfold Channel.run
    rw [hlist, hpair]
  exact ⟨by rw [hr], by rw [hr]; exact hrun.2.1, by rw [hr]; exact hrun.2.2⟩

/-- C7, witness at a concrete run. -/
theorem c7_witness :
    (Channel.run c7Env (exSetup 2) exState).1 = Except.ok "42"
  ∧ (Channel.run c7Env (exSetup 2) exState).2.rounds_executed = 1
  ∧ (Channel.run c7Env (exSetup 2) exState).2.stopped = true :=
  c7_first_round_consensus c7Env (exSetup 2) exState (by decide) rfl (fun _ => rfl)

/-- C8: a gateway failure on the call of the participant at position `i`
(the call made after `i` earlier calls of this round) is recovered as the
empty reply: the collected pair for that participant is `(agent, "")`, the
history of that participant ends with the per-round user instruction
followed by an empty assistant message, and the round loop still always
reaches an `ok` terminal result for any positive round budget. -/
theorem c8_participant_failure_soft (env : Env) (cs : ChannelSetup)
    (st : ChannelState) (round_idx i : Nat) (a : Agent)
    (hstop : st.stopped = false)
    (hi : cs.participants.get? i = some a)
    (hfail : ∀ msgs, env.oracle (st.calls.length + i) a msgs = none)
    (hlen : i < st.partHists.length) :
    ((collectParticipantResponses env cs st round_idx).1.get? i = some (a, ""))
  ∧ ((collectParticipantResponses env cs st round_idx).2.partHists[i]? =
      some (st.partHists.getD i [] ++
        [⟨"user", roundInstruction round_idx⟩, ⟨"assistant", ""⟩]))
  ∧ (∀ (env2 : Env) (cs2 : ChannelSetup) (st2 : ChannelState),
      1 ≤ cs2.config.max_rounds →
      ∃ ans st', Channel.run env2 cs2 st2 = (Except.ok ans, st')) := by
  have h := collectLoop_enumFrom_fail env cs round_idx cs.participants 0 st i a hi
    hfail (by simpa using hlen)
  exact ⟨by simpa [collectParticipantResponses, hstop, List.enum] using h.1,
    by simpa [collectParticipantResponses, hstop, List.enum] using h.2,
    fun env2 cs2 st2 hM => run_total env2 cs2 st2 hM⟩

/-- C8, witness: the participant call of round 1 fails and its history
records the empty contribution; a concrete run also terminates ok. -/
theorem c8_witness :
    ((collectParticipantResponses c8Env (exSetup 2) exState 1).1.get? 0 =
      some (exParticipant, ""))
  ∧ ((collectParticipantResponses c8Env (exSetup 2) exState 1).2.partHists[0]? =
      some (exState.partHists.getD 0 [] ++
        [⟨"user", roundInstruction 1⟩, ⟨"assistant", ""⟩]))
  ∧ (∃ ans st', Channel.run c8Env (exSetup 2) exState = (Except.ok ans, st')) := by
  have h := c8_participant_failure_soft c8Env (exSetup 2) exState 1 0 exParticipant
    rfl rfl (fun _ => rfl) (by decide)
  exact ⟨h.1, h.2.1, h.2.2 c8Env (exSetup 2) exState (by decide)⟩

/-- C9: the prompt composed for the participant at position `i` in round
`n` is: in round 1 only, the configured or default collaboration system
prompt and the task system message; then the participant history; in
rounds after the first (when every other tracked history is nonempty), one
system message listing the most recent message content of the moderator
and of each other participant, joined by dividers; and always the final
round-parameterized user instruction, which is also appended to the
history of that participant. -/
theorem c9_participant_prompt (cs : ChannelSetup) (st : ChannelState)
    (i round_idx : Nat) (h1 : 1 ≤ round_idx)
    (hne : 1 < round_idx → ∀ h ∈ st.guidingHist :: st.partHists.eraseIdx i, h ≠ []) :
    ((buildParticipantPrompt cs st i round_idx).1 =
      (if round_idx = 1 then
        [⟨"system", cs.config.participant_system_prompt.getD defaultParticipantPrompt⟩,
         ⟨"system", "TASK: " ++ cs.task⟩] else [])
      ++ st.partHists.getD i []
      ++ (if 1 < round_idx then
          [⟨"system", fellowHeading ++ pyJoin "\n---\n"
            ((st.guidingHist :: st.partHists.eraseIdx i).map lastContent)⟩] else [])
      ++ [⟨"user", roundInstruction round_idx⟩])
  ∧ ((buildParticipantPrompt cs st i round_idx).2.partHists =
      st.partHists.set i (st.partHists.getD i [] ++
        [⟨"user", roundInstruction round_idx⟩])) := by
  constructor
  · by_cases hr : round_idx = 1
    · subst hr
      simp [buildParticipantPrompt]
    · have hgt : 1 < round_idx := by omega
      have hfm := filterMap_getLast_of_nonempty
        (st.guidingHist :: st.partHists.eraseIdx i) (hne hgt)
      have hoth : othersLastContents st i =
          (st.guidingHist :: st.partHists.eraseIdx i).map lastContent := by
        rw [othersLastContents, hfm]
      simp [buildParticipantPrompt, hr, hgt, hoth]
  · rw [buildParticipantPrompt_snd]

/-- Concrete state after one full round for the C9 witness: the moderator
history holds the round-1 verdict, the participant history its own turn. -/
def c9State : ChannelState := ⟨1, false, [⟨"assistant", "g"⟩], [[⟨"user", "u"⟩]], []⟩

/-- C9, witness at round 2 of a one-participant channel. -/
theorem c9_witness :
    ((buildParticipantPrompt (exSetup 2) c9State 0 2).1 =
      (if (2 : Nat) = 1 then
        [⟨"system", (exSetup 2).config.participant_system_prompt.getD defaultParticipantPrompt⟩,
         ⟨"system", "TASK: " ++ (exSetup 2).task⟩] else [])
      ++ c9State.partHists.getD 0 []
      ++ (if (1 : Nat) < 2 then
          [⟨"system", fellowHeading ++ pyJoin "\n---\n"
            ((c9State.guidingHist :: c9State.partHists.eraseIdx 0).map lastContent)⟩] else [])
      ++ [⟨"user", roundInstruction 2⟩])
  ∧ ((buildParticipantPrompt (exSetup 2) c9State 0 2).2.partHists =
      c9State.partHists.set 0 (c9State.partHists.getD 0 [] ++
        [⟨"user", roundInstruction 2⟩])) :=
  c9_participant_prompt (exSetup 2) c9State 0 2 (by decide) (fun _ => by decide)

/-- C10: with a positive round budget, `Channel.run` always returns out of
the round loop (through the consensus or the round-limit branch), so the
defensive post-loop fallback is unreachable; with a round budget of zero
the loop body never runs and the fallback expression reads the never
assigned variable `content`, so the run raises an unbound-local error
instead of returning the documented fallback string. -/
theorem c10_fallback_unreachable (env : Env) (cs : ChannelSetup) (st : ChannelState) :
    (1 ≤ cs.config.max_rounds →
      ∃ a st', runRounds env cs (List.range' 1 cs.config.max_rounds) st none =
          (LoopExit.returned a, st')
        ∧ Channel.run env cs st = (Except.ok a, st'))
  ∧ (cs.config.max_rounds = 0 →
      Channel.run env cs st = (Except.error RunError.unboundLocal, st)) := by
  constructor
  · intro hM
    obtain ⟨m, hm⟩ : ∃ m, cs.config.max_rounds = m + 1 :=
      ⟨cs.config.max_rounds - 1, by omega⟩
    obtain ⟨a, st', h⟩ := runRounds_total env cs
      (List.range' 1 cs.config.max_rounds) st none
      (by rw [hm]; exact range'_one_getLast m)
    exact ⟨a, st', h, run_eq_of_returned env cs st h⟩
  · intro h0
    unfold Channel.run
    rw [h0]
    rfl

/-- C10, witness: a concrete two-round run returns from inside the loop,
and a zero-round configuration raises the unbound-local error. -/
theorem c10_witness :
    (∃ a st', runRounds noneEnv (exSetup 2)
        (List.range' 1 (exSetup 2).config.max_rounds) exState none =
          (LoopExit.returned a, st')
      ∧ Channel.run noneEnv (exSetup 2) exState = (Except.ok a, st'))
  ∧ Channel.run noneEnv (exSetup 0) exState =
      (Except.error RunError.unboundLocal, exState) :=
  ⟨(c10_fallback_unreachable noneEnv (exSetup 2) exState).1 (by decide),
   (c10_fallback_unreachable noneEnv (exSetup 0) exState).2 rfl⟩
